import Mathlib

/-!
Shallow embedding of the product-catalog service, translated from
src/main.py and src/logging_middleware.py.

The in-memory database `products_db` is a Python dict keyed by product id;
Python dicts preserve insertion order, so it is modelled as an association
list `List (Nat × Product)` in insertion order together with the
module-global `next_id` counter.  Handlers are pure functions on this
state; raising `HTTPException` is modelled with `Except`; the time source
and the image-library calls are passed in as explicit parameters.
-/

/-- A product record as stored in `products_db` (a Python dict value).
`description` is nullable; `image_url` is the optional image reference,
absent (`none`) on seed records and on freshly created records.  The
price, a Python float used only for comparisons and equality here, is
modelled as a rational number. -/
structure Product where
  id : Nat
  name : String
  description : Option String
  price : ℚ
  in_stock : Bool
  created_at : String
  image_url : Option String
deriving Repr, DecidableEq, Inhabited

/-- Request body of POST /api/v1/products (pydantic model `ProductCreate`),
after framework validation: `name` non-empty and at most 100 characters,
`price > 0`, `in_stock` defaulted to `true` when omitted. -/
structure ProductCreate where
  name : String
  description : Option String
  price : ℚ
  in_stock : Bool
deriving Repr, DecidableEq, Inhabited

/-- Request body of PUT /api/v1/products/{id} (pydantic model
`ProductUpdate`).  A field is `none` when omitted from the request, so that
`model_dump(exclude_unset=True)` keeps exactly the `some` fields; the
nullable `description` field distinguishes being explicitly set to null
(`some none`) from being omitted (`none`). -/
structure ProductUpdate where
  name : Option String
  description : Option (Option String)
  price : Option ℚ
  in_stock : Option Bool
deriving Repr, DecidableEq, Inhabited

/-- The module-global mutable state of src/main.py: the dict `products_db`
and the counter `next_id`. -/
structure Store where
  db : List (Nat × Product)
  next_id : Nat
deriving Repr, DecidableEq, Inhabited

/-- `products_db[k]` as an optional read (`k in products_db` is success). -/
def dictGet : List (Nat × Product) → Nat → Option Product
  | [], _ => none
  | kv :: rest, k => if kv.1 == k then some kv.2 else dictGet rest k

/-- `list(products_db.keys())`. -/
def dictKeys (db : List (Nat × Product)) : List Nat :=
  db.map Prod.fst

/-- `products_db[k] = v`: overwrites in place when the key is present,
otherwise appends (Python dict insertion-order semantics). -/
def dictSet : List (Nat × Product) → Nat → Product → List (Nat × Product)
  | [], k, v => [(k, v)]
  | kv :: rest, k, v => if kv.1 == k then (k, v) :: rest else kv :: dictSet rest k v

/-- `del products_db[k]`. -/
def dictDel (db : List (Nat × Product)) (k : Nat) : List (Nat × Product) :=
  db.filter (fun kv => kv.1 != k)

/-- The seed data `INITIAL_PRODUCTS` (src/main.py lines 92-125), keyed by
id as the dict comprehension on line 127 does. -/
def INITIAL_PRODUCTS : List (Nat × Product) :=
  [ (1, { id := 1, name := "Wireless Mouse",
          description := some "Ergonomic wireless mouse with USB receiver",
          price := 29.99, in_stock := true,
          created_at := "2025-12-14T10:00:00", image_url := none }),
    (2, { id := 2, name := "Mechanical Keyboard",
          description := some "RGB mechanical keyboard with blue switches",
          price := 89.99, in_stock := true,
          created_at := "2025-12-14T10:00:00", image_url := none }),
    (3, { id := 3, name := "USB-C Hub",
          description := some "7-in-1 USB-C hub with HDMI and SD card reader",
          price := 45.50, in_stock := false,
          created_at := "2025-12-14T10:00:00", image_url := none }),
    (4, { id := 4, name := "Laptop Stand",
          description := some "Adjustable aluminum laptop stand",
          price := 39.99, in_stock := true,
          created_at := "2025-12-14T10:00:00", image_url := none }) ]

/-- The greatest key present in the dict, `max(products_db.keys())`
(0 on an empty dict, where the source never evaluates it). -/
def maxId (db : List (Nat × Product)) : Nat :=
  (dictKeys db).foldr max 0

/-- The process-start state: `products_db` holds the seed records and
`next_id = max(products_db.keys()) + 1 if products_db else 1`. -/
def initStore : Store :=
  { db := INITIAL_PRODUCTS,
    next_id := if INITIAL_PRODUCTS.isEmpty then 1 else maxId INITIAL_PRODUCTS + 1 }

/-- A raised `HTTPException`. -/
structure HTTPExc where
  status_code : Nat
  detail : String
deriving Repr, DecidableEq, Inhabited

/-- The uniform error body produced by the custom exception handler. -/
structure ErrorBody where
  error : String
  status_code : Nat
deriving Repr, DecidableEq, Inhabited

/-- `http_exception_handler` (src/main.py lines 190-195): converts a raised
`HTTPException` into the response status code and the uniform JSON body
`{"error": exc.detail, "status_code": exc.status_code}`. -/
def http_exception_handler (exc : HTTPExc) : Nat × ErrorBody :=
  (exc.status_code, { error := exc.detail, status_code := exc.status_code })

/-- GET /api/v1/products/{product_id} (src/main.py lines 293-304). -/
def get_product (s : Store) (product_id : Nat) : Except HTTPExc Product :=
  match dictGet s.db product_id with
  | none =>
    .error { status_code := 404
             detail := "Product with id " ++ toString product_id ++ " not found" }
  | some p => .ok p

/-- POST /api/v1/products (src/main.py lines 315-334): never fails given a
validated body; builds the record from `next_id`, the submitted fields and
the current timestamp `now`, inserts it, and increments the counter. -/
def create_product (s : Store) (product : ProductCreate) (now : String) :
    Product × Store :=
  let new_product : Product :=
    { id := s.next_id, name := product.name, description := product.description,
      price := product.price, in_stock := product.in_stock,
      created_at := now, image_url := none }
  (new_product, { db := dictSet s.db s.next_id new_product, next_id := s.next_id + 1 })

/-- The merge loop of `update_product`: `model_dump(exclude_unset=True)`
yields exactly the `some` fields of the request, and each of them is
assigned into the stored record; omitted (`none`) fields are untouched. -/
def applyUpdate (p : Product) (u : ProductUpdate) : Product :=
  { p with
    name := u.name.getD p.name
    description := u.description.getD p.description
    price := u.price.getD p.price
    in_stock := u.in_stock.getD p.in_stock }

/-- PUT /api/v1/products/{product_id} (src/main.py lines 348-366).  Returns
the handler result together with the store after the request (the source
mutates the stored dict in place). -/
def update_product (s : Store) (product_id : Nat) (u : ProductUpdate) :
    Except HTTPExc Product × Store :=
  match dictGet s.db product_id with
  | none =>
    (.error { status_code := 404
              detail := "Product with id " ++ toString product_id ++ " not found" }, s)
  | some stored =>
    let updated := applyUpdate stored u
    (.ok updated, { db := dictSet s.db product_id updated, next_id := s.next_id })

/-- DELETE /api/v1/products/{product_id} (src/main.py lines 380-393). -/
def delete_product (s : Store) (product_id : Nat) :
    Except HTTPExc Unit × Store :=
  match dictGet s.db product_id with
  | none =>
    (.error { status_code := 404
              detail := "Product with id " ++ toString product_id ++ " not found" }, s)
  | some _ => (.ok (), { db := dictDel s.db product_id, next_id := s.next_id })

/-- The paginated envelope returned by GET /api/v1/products. -/
structure PaginatedProducts where
  total_items : Nat
  total_pages : Nat
  page : Nat
  page_size : Nat
  items : List Product
deriving Repr, DecidableEq, Inhabited

/-- Python list slicing `l[start:stop]` for non-negative bounds. -/
def pySlice (l : List Product) (start stop : Nat) : List Product :=
  (l.drop start).take (stop - start)

/-- The filter stages of `list_products` (src/main.py lines 259-266):
`list(products_db.values())` and the three optional conjunctive filters. -/
def filteredProducts (s : Store) (in_stock : Option Bool)
    (min_price max_price : Option ℚ) : List Product :=
  let products := s.db.map Prod.snd
  let products := match in_stock with
    | none => products
    | some v => products.filter (fun p => p.in_stock == v)
  let products := match min_price with
    | none => products
    | some m => products.filter (fun p => m ≤ p.price)
  match max_price with
  | none => products
  | some m => products.filter (fun p => p.price ≤ m)

/-- GET /api/v1/products (src/main.py lines 244-279).  The framework
rejects `page < 1` and `page_size` outside [1, 100] before the handler
runs, so those bounds appear as hypotheses of the theorems below. -/
def list_products (s : Store) (in_stock : Option Bool)
    (min_price max_price : Option ℚ) (page page_size : Nat) : PaginatedProducts :=
  let products := filteredProducts s in_stock min_price max_price
  let total_items := products.length
  let total_pages := (total_items + page_size - 1) / page_size
  let start_index := (page - 1) * page_size
  let end_index := start_index + page_size
  { total_items := total_items, total_pages := total_pages,
    page := page, page_size := page_size,
    items := pySlice products start_index end_index }

/-- `UPLOADS_DIR` (src/main.py line 397). -/
def UPLOADS_DIR : String := "uploads"

/-- `THUMBNAIL_SIZE` (src/main.py line 398). -/
def THUMBNAIL_SIZE : Nat × Nat := (200, 200)

/-- `get_image_extension` (src/main.py lines 403-408): exact-match lookup
in the content-type table; the argument is `file.content_type`, which the
framework reports as `none` when the upload carries no content type
(`dict.get(None)` is also a miss). -/
def get_image_extension (content_type : Option String) : Option String :=
  if content_type == some "image/jpeg" then some "jpg"
  else if content_type == some "image/png" then some "png"
  else if content_type == some "image/webp" then some "webp"
  else none

/-- Outcome of the image-library block (`Image.open`, `thumbnail`, `save`),
which is an external collaborator: it either succeeds, raises `IOError`,
or raises some other exception. -/
inductive ImgOutcome
  | ok
  | ioError
  | otherError
deriving Repr, DecidableEq, Inhabited

/-- POST /api/v1/products/{product_id}/image (src/main.py lines 424-468).
The store is mutated only after the image block succeeds; every error path
leaves it untouched. -/
def upload_product_image (s : Store) (product_id : Nat)
    (content_type : Option String) (outcome : ImgOutcome) :
    Except HTTPExc Product × Store :=
  match dictGet s.db product_id with
  | none =>
    (.error { status_code := 404
              detail := "Product with ID " ++ toString product_id ++ " not found" }, s)
  | some stored =>
    match get_image_extension content_type with
    | none =>
      (.error { status_code := 400
                detail := "Invalid image format. Only PNG, JPG, and WEBP are supported." }, s)
    | some ext =>
      match outcome with
      | .ioError =>
        (.error { status_code := 500
                  detail := "Error processing image file." }, s)
      | .otherError =>
        (.error { status_code := 500
                  detail := "An unexpected error occurred while uploading the file." }, s)
      | .ok =>
        let image_url := "/" ++ UPLOADS_DIR ++ "/" ++ toString product_id ++ "." ++ ext
        let updated := { stored with image_url := some image_url }
        (.ok updated, { db := dictSet s.db product_id updated, next_id := s.next_id })

/-- `SENSITIVE_HEADERS` (src/logging_middleware.py line 7). -/
def SENSITIVE_HEADERS : List String := ["authorization", "cookie", "x-api-key"]

/-- `redact_sensitive_headers` (src/logging_middleware.py lines 9-17):
rebuilds the header dict, replacing the value of every key whose lowercase
form is sensitive by the fixed marker and keeping every other entry.  The
header dict is modelled as an association list in iteration order. -/
def redact_sensitive_headers (headers : List (String × String)) :
    List (String × String) :=
  headers.map (fun kv =>
    if SENSITIVE_HEADERS.contains kv.1.toLower then (kv.1, "[REDACTED]") else kv)

/-- A store-mutating request, for reasoning about sequences of operations
against the process-wide state. -/
inductive Op
  | create (fields : ProductCreate) (now : String)
  | delete (product_id : Nat)

/-- The store after one request (a failed delete leaves it unchanged). -/
def applyOp (s : Store) : Op → Store
  | .create f now => (create_product s f now).2
  | .delete pid => (delete_product s pid).2

/-- The store after a sequence of requests. -/
def run (s : Store) : List Op → Store
  | [] => s
  | op :: ops => run (applyOp s op) ops

/-- The identifiers returned by the create operations of a request
sequence, in order. -/
def createdIds (s : Store) : List Op → List Nat
  | [] => []
  | .create f now :: ops =>
    (create_product s f now).1.id :: createdIds (applyOp s (.create f now)) ops
  | .delete pid :: ops => createdIds (applyOp s (.delete pid)) ops

/-- The number of create operations in a request sequence. -/
def countCreates : List Op → Nat
  | [] => 0
  | .create _ _ :: ops => countCreates ops + 1
  | .delete _ :: ops => countCreates ops

/-- The slice [start, stop) of a list clipped to the list's bounds, stated
from the spec's words: the elements sitting at the positions i with
start ≤ i < stop, those positions that exist in the list. -/
def sliceSpec (l : List Product) (start stop : Nat) : List Product :=
  (List.range' start (stop - start)).filterMap (fun i => l[i]?)

/-- Modelled from the spec: the source files under src/ contain no handler
for GET /api/v1/github-status (the spec attributes the endpoint to a
second variant of the service whose file is not among the sources), so the
outcome of the outbound call to the third-party status API is modelled as
an explicit input. -/
inductive UpstreamOutcome
  | reachable (status_code : Nat) (body_status : String)
  | unreachable
  | timeout
deriving Repr, DecidableEq, Inhabited

/-- Modelled from the spec: the fixed timeout, in seconds, on the outbound
status check; elapsing it yields the `UpstreamOutcome.timeout` outcome. -/
def GITHUB_STATUS_TIMEOUT_SECONDS : Nat := 5

/-- The success body of GET /api/v1/github-status. -/
structure GithubStatusBody where
  external_service : String
  status : String
  status_code : Nat
  checked_at : String
deriving Repr, DecidableEq, Inhabited

/-- Modelled from the spec: the GET /api/v1/github-status handler returns
200 with the four-field body on success and 503 with no success body when
the upstream is unreachable or the timeout elapses. -/
def github_status (o : UpstreamOutcome) (now : String) :
    Nat × Option GithubStatusBody :=
  match o with
  | .reachable sc st =>
    (200, some { external_service := "github", status := st,
                 status_code := sc, checked_at := now })
  | .unreachable => (503, none)
  | .timeout => (503, none)

/-! ### Dictionary lemmas -/

theorem dictGet_dictSet_self (db : List (Nat × Product)) (k : Nat) (v : Product) :
    dictGet (dictSet db k v) k = some v := by
  induction db with
  | nil => simp [dictSet, dictGet]
  | cons kv rest ih =>
    by_cases h : kv.1 = k
    · simp [dictSet, dictGet, h]
    · simp [dictSet, dictGet, h, ih]

theorem dictGet_dictSet_ne (db : List (Nat × Product)) (k q : Nat) (v : Product)
    (h : q ≠ k) : dictGet (dictSet db k v) q = dictGet db q := by
  have hkq : ¬(k = q) := fun hh => h hh.symm
  induction db with
  | nil => simp [dictSet, dictGet, hkq]
  | cons kv rest ih =>
    by_cases hk : kv.1 = k
    · subst hk
      simp [dictSet, dictGet, hkq]
    · simp [dictSet, dictGet, hk, ih]

theorem dictSet_eq_of_get (db : List (Nat × Product)) (k : Nat) (v : Product)
    (h : dictGet db k = some v) : dictSet db k v = db := by
  induction db with
  | nil => simp [dictGet] at h
  | cons kv rest ih =>
    by_cases hk : kv.1 = k
    · subst hk
      simp [dictGet] at h
      simp [dictSet, ← h]
    · simp [dictGet, hk] at h
      simp [dictSet, hk, ih h]

theorem mem_dictKeys_dictSet (db : List (Nat × Product)) (k q : Nat) (v : Product)
    (h : q ∈ dictKeys (dictSet db k v)) : q ∈ dictKeys db ∨ q = k := by
  induction db with
  | nil => simp [dictSet, dictKeys] at h; simp [h]
  | cons kv rest ih =>
    by_cases hk : kv.1 = k
    · simp [dictSet, dictKeys, hk] at h
      rcases h with h | h
      · right; exact h
      · left; simp [dictKeys, h]
    · simp [dictSet, dictKeys, hk] at h
      rcases h with h | h
      · left; simp [dictKeys, h]
      · rcases ih (by simpa [dictKeys] using h) with h2 | h2
        · left; simp [dictKeys] at h2 ⊢; exact Or.inr h2
        · right; exact h2

theorem mem_dictKeys_dictDel (db : List (Nat × Product)) (k q : Nat)
    (h : q ∈ dictKeys (dictDel db k)) : q ∈ dictKeys db := by
  simp only [dictKeys, dictDel, List.mem_map] at h ⊢
  rcases h with ⟨kv, hkv, hq⟩
  exact ⟨kv, (List.mem_filter.mp hkv).1, hq⟩

theorem dictSet_of_not_mem (db : List (Nat × Product)) (k : Nat) (v : Product)
    (h : k ∉ dictKeys db) : dictSet db k v = db ++ [(k, v)] := by
  induction db with
  | nil => simp [dictSet]
  | cons kv rest ih =>
    simp [dictKeys] at h
    simp [dictSet, Ne.symm h.1, ih (by simp [dictKeys, h.2])]

theorem dictGet_eq_none_of_not_mem (db : List (Nat × Product)) (k : Nat)
    (h : k ∉ dictKeys db) : dictGet db k = none := by
  induction db with
  | nil => rfl
  | cons kv rest ih =>
    simp [dictKeys] at h
    simp [dictGet, Ne.symm h.1, ih (by simp [dictKeys, h.2])]

/-! ### Request-sequence lemmas -/

theorem next_id_applyOp_create (s : Store) (f : ProductCreate) (now : String) :
    (applyOp s (.create f now)).next_id = s.next_id + 1 := rfl

theorem next_id_applyOp_delete (s : Store) (pid : Nat) :
    (applyOp s (.delete pid)).next_id = s.next_id := by
  cases h : dictGet s.db pid <;> simp [applyOp, delete_product, h]

theorem le_of_mem_createdIds (ops : List Op) :
    ∀ (s : Store) (i : Nat), i ∈ createdIds s ops → s.next_id ≤ i := by
  induction ops with
  | nil => intro s i hi; simp [createdIds] at hi
  | cons op ops ih =>
    intro s i hi
    cases op with
    | create f now =>
      rw [createdIds] at hi
      rcases List.mem_cons.mp hi with h | h
      · simp [create_product] at h
        omega
      · have h2 := ih _ _ h
        rw [next_id_applyOp_create] at h2
        omega
    | delete pid =>
      rw [createdIds] at hi
      have h2 := ih _ _ hi
      rw [next_id_applyOp_delete] at h2
      exact h2

theorem createdIds_pairwise (ops : List Op) :
    ∀ s : Store, List.Pairwise (· < ·) (createdIds s ops) := by
  induction ops with
  | nil => intro s; simp [createdIds]
  | cons op ops ih =>
    intro s
    cases op with
    | create f now =>
      rw [createdIds]
      refine List.pairwise_cons.mpr ⟨?_, ih _⟩
      intro i hi
      have h2 := le_of_mem_createdIds ops _ _ hi
      rw [next_id_applyOp_create] at h2
      simp [create_product]
      omega
    | delete pid =>
      rw [createdIds]
      exact ih _

/-- C1: over every sequence of create and delete requests starting from the
initial store, the identifiers assigned by the creates come strictly after
every previously assigned identifier — the seed identifiers included — so
the whole assignment sequence is strictly increasing and no identifier is
ever assigned twice, even after the product that held it was deleted. -/
theorem created_ids_strictly_increasing (ops : List Op) :
    List.Pairwise (· < ·) (dictKeys initStore.db ++ createdIds initStore ops) ∧
    (dictKeys initStore.db ++ createdIds initStore ops).Nodup := by
  have hpair : List.Pairwise (· < ·) (dictKeys initStore.db ++ createdIds initStore ops) := by
    rw [List.pairwise_append]
    refine ⟨by decide, createdIds_pairwise ops initStore, ?_⟩
    intro a ha b hb
    have hb5 : initStore.next_id ≤ b := le_of_mem_createdIds ops initStore b hb
    have ha4 : a ≤ 4 := by
      have hkeys : dictKeys initStore.db = [1, 2, 3, 4] := by decide
      rw [hkeys] at ha
      simp at ha
      omega
    have h5 : initStore.next_id = 5 := by decide
    omega
  exact ⟨hpair, hpair.imp Nat.ne_of_lt⟩

/-! ### The identifier counter versus the store maximum -/

theorem run_next_id (ops : List Op) :
    ∀ s : Store, (run s ops).next_id = s.next_id + countCreates ops := by
  induction ops with
  | nil => intro s; rfl
  | cons op ops ih =>
    intro s
    cases op with
    | create f now =>
      rw [run, ih, next_id_applyOp_create, countCreates]
      omega
    | delete pid =>
      rw [run, ih, next_id_applyOp_delete, countCreates]

theorem createdIds_formula (ops : List Op) :
    ∀ s : Store, createdIds s ops = (List.range (countCreates ops)).map (s.next_id + ·) := by
  induction ops with
  | nil => intro s; rfl
  | cons op ops ih =>
    intro s
    cases op with
    | create f now =>
      rw [createdIds, ih, next_id_applyOp_create, countCreates,
        List.range_succ_eq_map, List.map_cons, List.map_map]
      refine congrArg₂ _ (by simp [create_product]) ?_
      apply List.map_congr_left
      intro i _
      simp [Function.comp]
      omega
    | delete pid =>
      rw [createdIds, ih, next_id_applyOp_delete, countCreates]

theorem foldr_max_append (l1 l2 : List Nat) :
    (l1 ++ l2).foldr max 0 = max (l1.foldr max 0) (l2.foldr max 0) := by
  induction l1 with
  | nil => simp
  | cons a t ih => simp [ih, Nat.max_assoc]

theorem foldr_max_range_map (c k : Nat) :
    (((List.range k).map (c + ·)).foldr max 0) = if k = 0 then 0 else c + k - 1 := by
  induction k with
  | zero => simp
  | succ k ih =>
    rw [List.range_succ, List.map_append, foldr_max_append, ih]
    rcases Nat.eq_zero_or_pos k with hk | hk
    · subst hk; simp
    · simp only [if_neg (Nat.pos_iff_ne_zero.mp hk), if_neg (Nat.succ_ne_zero k)]
      simp [Nat.max_def]

/-- C2 refuted at a concrete reachable state: after deleting product 4 from
the initial store, the store's maximum identifier is 3, yet create assigns
identifier 5 (the counter value), not 4 — so the identifier a create
assigns is not the current maximum identifier present in the store plus
one, even on a non-empty store. -/
theorem create_id_not_store_max_succ :
    (run initStore [Op.delete 4]).db ≠ [] ∧
    maxId (run initStore [Op.delete 4]).db + 1 = 4 ∧
    (create_product (run initStore [Op.delete 4])
        { name := "Widget", description := none, price := 9.99, in_stock := true }
        "2025-12-15T00:00:00").1.id = 5 ∧
    (create_product (run initStore [Op.delete 4])
        { name := "Widget", description := none, price := 9.99, in_stock := true }
        "2025-12-15T00:00:00").1.id ≠
      maxId (run initStore [Op.delete 4]).db + 1 := by
  refine ⟨by decide, by decide, by decide, by decide⟩

theorem keys_lt_run (ops : List Op) :
    ∀ s : Store, (∀ k ∈ dictKeys s.db, k < s.next_id) →
      ∀ k ∈ dictKeys (run s ops).db, k < (run s ops).next_id := by
  induction ops with
  | nil => intro s h; exact h
  | cons op ops ih =>
    intro s h
    rw [run]
    apply ih
    cases op with
    | create f now =>
      intro k hk
      rw [next_id_applyOp_create]
      simp only [applyOp, create_product] at hk
      rcases mem_dictKeys_dictSet _ _ _ _ hk with h1 | h1
      · have := h k h1; omega
      · omega
    | delete pid =>
      intro k hk
      rw [next_id_applyOp_delete]
      cases hd : dictGet s.db pid with
      | none =>
        simp only [applyOp, delete_product, hd] at hk
        exact h k hk
      | some p =>
        simp only [applyOp, delete_product, hd] at hk
        exact h k (mem_dictKeys_dictDel _ _ _ hk)

/-- C2 (amended): for every store state reachable from the initial store,
create with valid fields never fails, and the identifier it assigns equals
the maximum identifier ever assigned in the process plus 1 — the counter
starts at the initial store's maximum identifier plus 1 (1 if that store
were empty) and deleted identifiers are not reused — which can exceed the
current maximum present in the store when the product holding that
maximum has been deleted.  The freshly assigned key is new, so the insert
appends the record to the store. -/
theorem create_product_assigns_counter (ops : List Op) (f : ProductCreate) (now : String) :
    (create_product (run initStore ops) f now).1.id
      = (dictKeys initStore.db ++ createdIds initStore ops).foldr max 0 + 1 ∧
    (create_product (run initStore ops) f now).2.db
      = (run initStore ops).db ++
          [((create_product (run initStore ops) f now).1.id,
            (create_product (run initStore ops) f now).1)] := by
  have h5 : initStore.next_id = 5 := by decide
  have hid : (create_product (run initStore ops) f now).1.id
      = (run initStore ops).next_id := rfl
  constructor
  · rw [hid, run_next_id, h5, foldr_max_append]
    have hkeys : (dictKeys initStore.db).foldr max 0 = 4 := by decide
    rw [hkeys, createdIds_formula, foldr_max_range_map, h5]
    rcases Nat.eq_zero_or_pos (countCreates ops) with h | h
    · simp [h]
    · rw [if_neg (Nat.pos_iff_ne_zero.mp h), Nat.max_def]
      split <;> omega
  · have hfresh : (run initStore ops).next_id ∉ dictKeys (run initStore ops).db := by
      intro hmem
      have := keys_lt_run ops initStore (by decide) _ hmem
      omega
    exact dictSet_of_not_mem _ _ _ hfresh

/-- C3: updating a product that is present succeeds and changes exactly the
fields explicitly present in the request: each supplied field takes the
supplied value (an explicit null sets the field to null, unlike an omitted
field, which keeps its previous value), while id, created_at and
image_url — which the request cannot carry — and every other product in
the store keep their previous values; the all-fields-omitted update leaves
the record and the store completely unchanged and still succeeds. -/
theorem update_product_partial_frame (s : Store) (pid : Nat) (u : ProductUpdate)
    (p : Product) (h : dictGet s.db pid = some p) :
    ∃ p2 s2, update_product s pid u = (.ok p2, s2) ∧
      p2.id = p.id ∧ p2.created_at = p.created_at ∧ p2.image_url = p.image_url ∧
      p2.name = u.name.getD p.name ∧
      p2.description = u.description.getD p.description ∧
      p2.price = u.price.getD p.price ∧
      p2.in_stock = u.in_stock.getD p.in_stock ∧
      (u.description = some none → p2.description = none) ∧
      (u.description = none → p2.description = p.description) ∧
      dictGet s2.db pid = some p2 ∧
      (∀ q, q ≠ pid → dictGet s2.db q = dictGet s.db q) ∧
      s2.next_id = s.next_id ∧
      (u = { name := none, description := none, price := none, in_stock := none } →
        p2 = p ∧ s2 = s) := by
  refine ⟨applyUpdate p u, { db := dictSet s.db pid (applyUpdate p u), next_id := s.next_id },
    ?_, rfl, rfl, rfl, rfl, rfl, rfl, rfl, ?_, ?_, ?_, ?_, rfl, ?_⟩
  · simp [update_product, h]
  · intro hd; simp [applyUpdate, hd]
  · intro hd; simp [applyUpdate, hd]
  · exact dictGet_dictSet_self _ _ _
  · intro q hq; exact dictGet_dictSet_ne _ _ _ _ hq
  · intro hu
    subst hu
    refine ⟨rfl, ?_⟩
    have hp : applyUpdate p
        { name := none, description := none, price := none, in_stock := none } = p := rfl
    rw [hp, dictSet_eq_of_get _ _ _ h]

/-- Witness for C3 at a concrete input: product 3 of the initial store,
with a request that sets the price, explicitly nulls the description and
omits the other fields. -/
theorem update_product_partial_frame_witness :
    dictGet initStore.db 3 = some
      { id := 3, name := "USB-C Hub",
        description := some "7-in-1 USB-C hub with HDMI and SD card reader",
        price := 45.50, in_stock := false,
        created_at := "2025-12-14T10:00:00", image_url := none } ∧
    (∃ p2 s2, update_product initStore 3
        { name := none, description := some none, price := some 59.99, in_stock := none }
        = (.ok p2, s2) ∧
      p2.id = 3 ∧ p2.created_at = "2025-12-14T10:00:00" ∧ p2.image_url = none ∧
      p2.name = "USB-C Hub" ∧
      p2.description = none ∧
      p2.price = 59.99 ∧
      p2.in_stock = false ∧
      dictGet s2.db 3 = some p2 ∧
      (∀ q, q ≠ 3 → dictGet s2.db q = dictGet initStore.db q) ∧
      s2.next_id = initStore.next_id) := by
  have h : dictGet initStore.db 3 = some
      { id := 3, name := "USB-C Hub",
        description := some "7-in-1 USB-C hub with HDMI and SD card reader",
        price := 45.50, in_stock := false,
        created_at := "2025-12-14T10:00:00", image_url := none } := by rfl
  refine ⟨h, ?_⟩
  rcases update_product_partial_frame initStore 3
      { name := none, description := some none, price := some 59.99, in_stock := none }
      _ h with ⟨p2, s2, h1, h2, h3, h4, h5, h6, h7, h8, _, _, h11, h12, h13, _⟩
  exact ⟨p2, s2, h1, h2, h3, h4, h5, h6, h7, h8, h11, h12, h13⟩

/-- C5: on an id absent from the store — never issued or already
deleted — get, update and delete each raise a 404, the store is left
unmodified, and the exception handler renders every such exception as
status 404 with the uniform body holding the error string and
status_code 404. -/
theorem not_found_uniform (s : Store) (pid : Nat) (u : ProductUpdate)
    (h : dictGet s.db pid = none) :
    get_product s pid =
      .error { status_code := 404
               detail := "Product with id " ++ toString pid ++ " not found" } ∧
    update_product s pid u =
      (.error { status_code := 404
                detail := "Product with id " ++ toString pid ++ " not found" }, s) ∧
    delete_product s pid =
      (.error { status_code := 404
                detail := "Product with id " ++ toString pid ++ " not found" }, s) ∧
    (∀ e : HTTPExc, e.status_code = 404 →
      http_exception_handler e = (404, { error := e.detail, status_code := 404 })) := by
  refine ⟨?_, ?_, ?_, ?_⟩
  · simp [get_product, h]
  · simp [update_product, h]
  · simp [delete_product, h]
  · intro e he
    simp [http_exception_handler, he]

/-- Witness for C5 at a concrete input: id 99 was never issued in the
initial store. -/
theorem not_found_uniform_witness :
    dictGet initStore.db 99 = none ∧
    get_product initStore 99 =
      .error { status_code := 404
               detail := "Product with id " ++ toString 99 ++ " not found" } ∧
    (update_product initStore 99
      { name := none, description := none, price := none, in_stock := none }).2
      = initStore ∧
    (delete_product initStore 99).2 = initStore := by
  have h : dictGet initStore.db 99 = none := by rfl
  have hm := not_found_uniform initStore 99
    { name := none, description := none, price := none, in_stock := none } h
  exact ⟨h, hm.1, congrArg Prod.snd hm.2.1, congrArg Prod.snd hm.2.2.1⟩

/-! ### Pagination -/

theorem ceil_div_eq_nat_div (n m : Nat) (hm : 0 < m) :
    (n + m - 1) / m = ⌈(n : ℚ) / (m : ℚ)⌉₊ := by
  have hmq : (0 : ℚ) < m := by exact_mod_cast hm
  apply le_antisymm
  · have h1 : (n : ℚ) / m ≤ (⌈(n : ℚ) / (m : ℚ)⌉₊ : ℚ) := Nat.le_ceil _
    have h2 : (n : ℚ) ≤ (⌈(n : ℚ) / (m : ℚ)⌉₊ : ℚ) * m := by
      rwa [div_le_iff₀ hmq] at h1
    have h3 : n ≤ ⌈(n : ℚ) / (m : ℚ)⌉₊ * m := by exact_mod_cast h2
    calc (n + m - 1) / m ≤ (m - 1 + ⌈(n : ℚ) / (m : ℚ)⌉₊ * m) / m := by
          apply Nat.div_le_div_right; omega
      _ = ⌈(n : ℚ) / (m : ℚ)⌉₊ := by
          rw [Nat.add_mul_div_right _ _ hm, Nat.div_eq_of_lt (by omega), Nat.zero_add]
  · apply Nat.ceil_le.mpr
    rw [div_le_iff₀ hmq]
    have key : n ≤ m * ((n + m - 1) / m) := by
      have h := Nat.div_add_mod (n + m - 1) m
      have hr : (n + m - 1) % m < m := Nat.mod_lt _ hm
      omega
    calc (n : ℚ) ≤ ((m * ((n + m - 1) / m) : Nat) : ℚ) := by exact_mod_cast key
      _ = ((n + m - 1) / m : Nat) * m := by push_cast; ring

theorem filterMap_getElem_range_nil (l : List Product) (n : Nat) :
    ∀ s, l.length ≤ s → (List.range' s n).filterMap (fun i => l[i]?) = [] := by
  induction n with
  | zero => intro s _; rfl
  | succ n ih =>
    intro s h
    rw [List.range'_succ, List.filterMap_cons, List.getElem?_eq_none h, ih (s + 1) (by omega)]

theorem pySlice_eq_sliceSpec_aux (l : List Product) (n : Nat) :
    ∀ s, (l.drop s).take n = (List.range' s n).filterMap (fun i => l[i]?) := by
  induction n with
  | zero => intro s; simp
  | succ n ih =>
    intro s
    rw [List.range'_succ, List.filterMap_cons]
    cases hls : l[s]? with
    | none =>
      have hlen : l.length ≤ s := by rwa [List.getElem?_eq_none_iff] at hls
      rw [List.drop_eq_nil_of_le hlen, filterMap_getElem_range_nil l n (s + 1) (by omega)]
      rfl
    | some a =>
      rcases List.getElem?_eq_some.mp hls with ⟨hlt, hval⟩
      rw [List.drop_eq_getElem_cons hlt, hval, List.take_succ_cons, ih (s + 1)]

/-- C4: list reports total_pages = ceil(N / page_size) over the filtered
list of N products, and its items are exactly the slice
[(page-1)*page_size, (page-1)*page_size + page_size) of the filtered list
clipped to its bounds; a page beyond the last one yields zero items
without an error. -/
theorem list_products_pagination (s : Store) (in_stock : Option Bool)
    (min_price max_price : Option ℚ) (page page_size : Nat)
    (hpage : 1 ≤ page) (hps1 : 1 ≤ page_size) (hps2 : page_size ≤ 100) :
    (list_products s in_stock min_price max_price page page_size).total_items
      = (filteredProducts s in_stock min_price max_price).length ∧
    (list_products s in_stock min_price max_price page page_size).total_pages
      = ⌈((filteredProducts s in_stock min_price max_price).length : ℚ) / (page_size : ℚ)⌉₊ ∧
    (list_products s in_stock min_price max_price page page_size).items
      = sliceSpec (filteredProducts s in_stock min_price max_price)
          ((page - 1) * page_size) ((page - 1) * page_size + page_size) ∧
    (⌈((filteredProducts s in_stock min_price max_price).length : ℚ) / (page_size : ℚ)⌉₊ < page →
      (list_products s in_stock min_price max_price page page_size).items = []) := by
  refine ⟨rfl, ceil_div_eq_nat_div _ _ (by omega), ?_, ?_⟩
  · exact pySlice_eq_sliceSpec_aux (filteredProducts s in_stock min_price max_price)
      ((page - 1) * page_size + page_size - (page - 1) * page_size) ((page - 1) * page_size)
  · intro hbeyond
    have hceil := ceil_div_eq_nat_div
      (filteredProducts s in_stock min_price max_price).length page_size (by omega)
    have key : (filteredProducts s in_stock min_price max_price).length
        ≤ page_size * (((filteredProducts s in_stock min_price max_price).length
            + page_size - 1) / page_size) := by
      have h := Nat.div_add_mod
        ((filteredProducts s in_stock min_price max_price).length + page_size - 1) page_size
      have hr : ((filteredProducts s in_stock min_price max_price).length
          + page_size - 1) % page_size < page_size := Nat.mod_lt _ (by omega)
      omega
    have hmul : page_size * (((filteredProducts s in_stock min_price max_price).length
        + page_size - 1) / page_size) ≤ page_size * (page - 1) := by
      apply Nat.mul_le_mul_left
      rw [hceil]
      omega
    have hle : (filteredProducts s in_stock min_price max_price).length
        ≤ (page - 1) * page_size := by
      calc (filteredProducts s in_stock min_price max_price).length
          ≤ page_size * (((filteredProducts s in_stock min_price max_price).length
              + page_size - 1) / page_size) := key
        _ ≤ page_size * (page - 1) := hmul
        _ = (page - 1) * page_size := Nat.mul_comm _ _
    show pySlice (filteredProducts s in_stock min_price max_price)
        ((page - 1) * page_size) ((page - 1) * page_size + page_size) = []
    rw [pySlice, List.drop_eq_nil_of_le hle, List.take_nil]

/-- Witness for C4 at a concrete input: the unfiltered initial store (four
products) at page 3 with page size 2 — a page past the last — reports the
ceiling page count and returns zero items. -/
theorem list_products_pagination_witness :
    1 ≤ 3 ∧ 1 ≤ 2 ∧ 2 ≤ 100 ∧
    (list_products initStore none none none 3 2).total_pages
      = ⌈((filteredProducts initStore none none none).length : ℚ) / (2 : ℚ)⌉₊ ∧
    (list_products initStore none none none 3 2).items = [] := by
  have h := list_products_pagination initStore none none none 3 2
    (by decide) (by decide) (by decide)
  refine ⟨by decide, by decide, by decide, h.2.1, ?_⟩
  apply h.2.2.2
  rw [← h.2.1]
  show 2 < 3
  decide

/-! ### Image upload -/

/-- C6: image upload fails 404 when the product id is absent from the
store (checked before the content type); otherwise the content type is
resolved through the exact-match table image/jpeg→jpg, image/png→png,
image/webp→webp, and every other content type — a missing one
included — fails 400 InvalidFormat. -/
theorem upload_image_validation (s : Store) (pid : Nat) (ct : Option String)
    (oc : ImgOutcome) :
    (dictGet s.db pid = none →
      upload_product_image s pid ct oc =
        (.error { status_code := 404
                  detail := "Product with ID " ++ toString pid ++ " not found" }, s)) ∧
    get_image_extension (some "image/jpeg") = some "jpg" ∧
    get_image_extension (some "image/png") = some "png" ∧
    get_image_extension (some "image/webp") = some "webp" ∧
    get_image_extension none = none ∧
    (∀ c : String, c ≠ "image/jpeg" → c ≠ "image/png" → c ≠ "image/webp" →
      get_image_extension (some c) = none) ∧
    (dictGet s.db pid ≠ none → get_image_extension ct = none →
      upload_product_image s pid ct oc =
        (.error { status_code := 400
                  detail := "Invalid image format. Only PNG, JPG, and WEBP are supported." },
         s)) := by
  refine ⟨?_, rfl, rfl, rfl, rfl, ?_, ?_⟩
  · intro h
    simp [upload_product_image, h]
  · intro c h1 h2 h3
    simp [get_image_extension, h1, h2, h3]
  · intro h1 h2
    cases hd : dictGet s.db pid with
    | none => exact absurd hd h1
    | some p => simp [upload_product_image, hd, h2]

/-- C7: every failing image upload — product not found, unsupported
content type, or a decode/save error in the image library — leaves the
store unchanged, so the targeted product's image reference keeps its
previous value. -/
theorem upload_image_failure_frame (s : Store) (pid : Nat) (ct : Option String)
    (oc : ImgOutcome) (e : HTTPExc)
    (h : (upload_product_image s pid ct oc).1 = .error e) :
    (upload_product_image s pid ct oc).2 = s := by
  cases hd : dictGet s.db pid with
  | none => simp [upload_product_image, hd]
  | some p =>
    cases hx : get_image_extension ct with
    | none => simp [upload_product_image, hd, hx]
    | some ext =>
      cases oc with
      | ok => simp [upload_product_image, hd, hx] at h
      | ioError => simp [upload_product_image, hd, hx]
      | otherError => simp [upload_product_image, hd, hx]

/-- Witness for C7 at a concrete input: uploading with content type
text/plain for the existing product 1 fails with 400 and leaves the
initial store unchanged. -/
theorem upload_image_failure_frame_witness :
    (upload_product_image initStore 1 (some "text/plain") ImgOutcome.ok).1 =
      .error { status_code := 400
               detail := "Invalid image format. Only PNG, JPG, and WEBP are supported." } ∧
    (upload_product_image initStore 1 (some "text/plain") ImgOutcome.ok).2 = initStore := by
  have h : (upload_product_image initStore 1 (some "text/plain") ImgOutcome.ok).1 =
      .error { status_code := 400
               detail := "Invalid image format. Only PNG, JPG, and WEBP are supported." } := by
    rfl
  exact ⟨h, upload_image_failure_frame initStore 1 (some "text/plain") ImgOutcome.ok _ h⟩

/-! ### Header redaction, status probe, initial seeding -/

theorem mem_SENSITIVE_HEADERS (x : String) :
    x ∈ SENSITIVE_HEADERS ↔
      (x = "authorization" ∨ x = "cookie" ∨ x = "x-api-key") := by
  simp [SENSITIVE_HEADERS]

/-- C8: redaction returns a header mapping with exactly the same keys in
the same order; every entry whose key lowercases to authorization, cookie
or x-api-key has its value replaced by the fixed marker "[REDACTED]", and
every other entry keeps its original value — so a logged record never
holds a sensitive header's literal value. -/
theorem redact_sensitive_headers_spec (headers : List (String × String)) :
    (redact_sensitive_headers headers).map Prod.fst = headers.map Prod.fst ∧
    List.Forall₂ (fun kv kv2 =>
      kv2.1 = kv.1 ∧
      ((kv.1.toLower = "authorization" ∨ kv.1.toLower = "cookie" ∨
          kv.1.toLower = "x-api-key") → kv2.2 = "[REDACTED]") ∧
      (¬(kv.1.toLower = "authorization" ∨ kv.1.toLower = "cookie" ∨
          kv.1.toLower = "x-api-key") → kv2.2 = kv.2))
      headers (redact_sensitive_headers headers) ∧
    (∀ k v, (k, v) ∈ redact_sensitive_headers headers →
      (k.toLower = "authorization" ∨ k.toLower = "cookie" ∨ k.toLower = "x-api-key") →
      v = "[REDACTED]") := by
  refine ⟨?_, ?_, ?_⟩
  · rw [redact_sensitive_headers, List.map_map]
    apply List.map_congr_left
    intro kv _
    by_cases h : kv.1.toLower ∈ SENSITIVE_HEADERS <;> simp [h]
  · rw [redact_sensitive_headers, List.forall₂_map_right_iff]
    apply List.forall₂_same.mpr
    intro kv _
    by_cases h : kv.1.toLower ∈ SENSITIVE_HEADERS
    · have hs := (mem_SENSITIVE_HEADERS kv.1.toLower).mp h
      simp [h, hs]
    · have hs : ¬(kv.1.toLower = "authorization" ∨ kv.1.toLower = "cookie" ∨
          kv.1.toLower = "x-api-key") := fun hc =>
        h ((mem_SENSITIVE_HEADERS kv.1.toLower).mpr hc)
      simp [h, hs]
  · intro k v hmem hsens
    rw [redact_sensitive_headers] at hmem
    rcases List.mem_map.mp hmem with ⟨kv, hkv, heq⟩
    by_cases h : kv.1.toLower ∈ SENSITIVE_HEADERS
    · have heq2 : (kv.1, "[REDACTED]") = (k, v) := by
        rw [← heq]
        simp [h]
      exact ((Prod.mk.injEq _ _ _ _).mp heq2).2.symm
    · have heq2 : kv = (k, v) := by
        rw [← heq]
        simp [h]
      have hk : kv.1 = k := by rw [heq2]
      rw [hk] at h
      exact absurd ((mem_SENSITIVE_HEADERS k.toLower).mpr hsens) h

/-- C9: the GET /api/v1/github-status probe returns 200 with the
{external_service, status, status_code, checked_at} body when the
upstream call succeeds, and 503 with no success body when the upstream is
unreachable or the fixed 5-second timeout elapses. -/
theorem github_status_spec (o : UpstreamOutcome) (now : String) :
    GITHUB_STATUS_TIMEOUT_SECONDS = 5 ∧
    (∀ sc st, o = .reachable sc st →
      github_status o now =
        (200, some { external_service := "github", status := st,
                     status_code := sc, checked_at := now })) ∧
    ((o = .unreachable ∨ o = .timeout) →
      (github_status o now).1 = 503 ∧ (github_status o now).2 = none) := by
  refine ⟨rfl, ?_, ?_⟩
  · intro sc st h
    subst h
    rfl
  · intro h
    rcases h with h | h <;> subst h <;> exact ⟨rfl, rfl⟩

/-- C10: a fresh process starts with a non-empty store: the four seed
products hold identifiers 1 through 4, the identifier counter starts
at 5, the first create of the process assigns identifier 5, and an
unfiltered listing of the fresh store returns exactly the four seed
records. -/
theorem initial_store_seeded (f : ProductCreate) (now : String) :
    dictKeys initStore.db = [1, 2, 3, 4] ∧
    initStore.next_id = 5 ∧
    (create_product initStore f now).1.id = 5 ∧
    (list_products initStore none none none 1 10).total_items = 4 ∧
    (list_products initStore none none none 1 10).items = INITIAL_PRODUCTS.map Prod.snd := by
  exact ⟨by decide, by decide, rfl, by decide, by rfl⟩
